import Mathlib

/-!
Verification of the JSON-RPC core of the `clightningrpc` crate: the
`Request`/`Response` data model, the serde/strason serialization contract and
the result-extraction operations of `src/lib.rs`.

The generic structured value (`strason::Json`) and the error module
(`error::Error`, `error::RpcError`) are external collaborators of the single
source file; they are embedded here following the specification's description
of them (a tagged JSON tree with structural equality, and a closed error sum).
Numbers are modelled as integers: strason stores the literal digits verbatim,
so numeric payloads round-trip identically and the integer model is faithful
for every property treated here.
-/

namespace Clightningrpc

/-- The generic structured value (`strason::Json`): a tagged union of
null, boolean, number, string, ordered array and ordered key/value object. -/
inductive Json where
  | null : Json
  | bool : Bool → Json
  | num : Int → Json
  | str : String → Json
  | arr : List Json → Json
  | obj : List (String × Json) → Json

/-- Modelled from the spec: the wire-format decode error produced when a
structured value does not match the shape the caller requested
(`strason`'s decode error, carried opaquely). -/
structure JsonDecodeError where
  msg : String

/-- Modelled from the spec: the structured RPC error type of the absent
`error` module — signed integer `code`, human-readable `message`, optional
structured `data`. -/
structure RpcError where
  code : Int
  message : String
  data : Option Json

/-- Modelled from the spec: the closed caller-visible error sum of the absent
`error` module — a decode error, the daemon's structured RPC error surfaced
unchanged, the protocol-violation case (neither result nor error present),
and a pass-through transport kind. -/
inductive Error where
  | Json : JsonDecodeError → Error
  | Rpc : RpcError → Error
  | NoErrorOrResult : Error
  | Io : String → Error

/-- A JSONRPC request object (`Request` in `src/lib.rs`). -/
structure Request where
  method : String
  params : Json
  id : Json
  jsonrpc : Option String

/-- A JSONRPC response object (`Response` in `src/lib.rs`). -/
structure Response where
  result : Option Json
  error : Option RpcError
  id : Json
  jsonrpc : Option String

/-- `Response::result` (`src/lib.rs` lines 80–88): extract the result from a
response, decoding it into the caller's requested type.  The generic target
type `T` and its `DeserializeOwned` instance are embedded as an arbitrary
decoding function `dec : Json → Except JsonDecodeError α`. -/
def Response.result' {α : Type} (dec : Json → Except JsonDecodeError α)
    (self : Response) : Except Error α :=
  match self.error with
  | some e => .error (.Rpc e)
  | none =>
    match self.result with
    | some res => (dec res).mapError Error.Json
    | none => .error .NoErrorOrResult

/-- `Response::into_result` (`src/lib.rs` lines 91–100): extract the result
from a response, consuming the response. -/
def Response.into_result {α : Type} (dec : Json → Except JsonDecodeError α)
    (self : Response) : Except Error α :=
  match self.error with
  | some e => .error (.Rpc e)
  | none =>
    match self.result with
    | some res => (dec res).mapError Error.Json
    | none => .error .NoErrorOrResult

/-- `Response::check_error` (`src/lib.rs` lines 103–109): return the RPC
error, if there was one, but do not check the result. -/
def Response.check_error (self : Response) : Except Error Unit :=
  match self.error with
  | some e => .error (.Rpc e)
  | none => .ok ()

/-- `Response::is_none` (`src/lib.rs` lines 112–114): whether the `result`
field is empty. -/
def Response.is_none (self : Response) : Bool :=
  self.result.isNone

/-! ## Serialization (serde derive through the strason serializer)

`Json::from_serialize` on a struct produces an object with one key per field
in declaration order.  An `Option` field without attributes serializes `none`
as JSON null and `some v` as the serialization of `v`; on the way back,
a null (or absent) field deserializes to `none`.  Duplicate fields are a
decode error and unknown fields are ignored, as with serde's derived
deserializers. -/

/-- Serialization of an `Option` field: `none` becomes JSON null, `some v`
is serialized transparently. -/
def serOpt {α : Type} (f : α → Json) : Option α → Json
  | none => Json.null
  | some a => f a

/-- Deserialization of an `Option Json` field value: null yields `none`,
any other value is kept verbatim (total; `Json` decodes from anything). -/
def deOptJson : Json → Option Json
  | .null => none
  | v => some v

/-- Deserialization of an `Option String` field value. -/
def deOptString : Json → Except JsonDecodeError (Option String)
  | .null => .ok none
  | .str s => .ok (some s)
  | _ => .error ⟨"invalid type: expected string or null"⟩

/-- Serde serialization of `RpcError` (fields in declaration order). -/
def RpcError.toJson (e : RpcError) : Json :=
  .obj [("code", .num e.code), ("message", .str e.message),
        ("data", serOpt id e.data)]

/-- Accumulator for the field loop of `RpcError`'s derived deserializer. -/
structure RpcErrorSlots where
  code : Option Int
  message : Option String
  data : Option (Option Json)

/-- Field loop of `RpcError`'s derived deserializer. -/
def RpcError.fromFields :
    List (String × Json) → RpcErrorSlots → Except JsonDecodeError RpcErrorSlots
  | [], acc => .ok acc
  | (k, v) :: rest, acc =>
    if k = "code" then
      match acc.code with
      | some _ => .error ⟨"duplicate field code"⟩
      | none =>
        match v with
        | .num n => RpcError.fromFields rest { acc with code := some n }
        | _ => .error ⟨"invalid type: expected integer"⟩
    else if k = "message" then
      match acc.message with
      | some _ => .error ⟨"duplicate field message"⟩
      | none =>
        match v with
        | .str s => RpcError.fromFields rest { acc with message := some s }
        | _ => .error ⟨"invalid type: expected string"⟩
    else if k = "data" then
      match acc.data with
      | some _ => .error ⟨"duplicate field data"⟩
      | none => RpcError.fromFields rest { acc with data := some (deOptJson v) }
    else
      RpcError.fromFields rest acc

/-- Serde deserialization of `RpcError`: `code` and `message` are required,
`data` is optional with default `none`. -/
def RpcError.fromJson : Json → Except JsonDecodeError RpcError
  | .obj kvs => do
    let s ← RpcError.fromFields kvs ⟨none, none, none⟩
    match s.code, s.message with
    | some c, some m => .ok ⟨c, m, s.data.getD none⟩
    | none, _ => .error ⟨"missing field code"⟩
    | _, none => .error ⟨"missing field message"⟩
  | _ => .error ⟨"invalid type: expected object"⟩

/-- Deserialization of an `Option RpcError` field value: null yields `none`,
anything else must deserialize as an `RpcError`. -/
def deOptRpcError : Json → Except JsonDecodeError (Option RpcError)
  | .null => .ok none
  | v => (RpcError.fromJson v).map some

/-- Serde serialization of `Request` (fields in declaration order). -/
def Request.toJson (r : Request) : Json :=
  .obj [("method", .str r.method), ("params", r.params), ("id", r.id),
        ("jsonrpc", serOpt Json.str r.jsonrpc)]

/-- Accumulator for the field loop of `Request`'s derived deserializer. -/
structure RequestSlots where
  method : Option String
  params : Option Json
  id : Option Json
  jsonrpc : Option (Option String)

/-- Field loop of `Request`'s derived deserializer. -/
def Request.fromFields :
    List (String × Json) → RequestSlots → Except JsonDecodeError RequestSlots
  | [], acc => .ok acc
  | (k, v) :: rest, acc =>
    if k = "method" then
      match acc.method with
      | some _ => .error ⟨"duplicate field method"⟩
      | none =>
        match v with
        | .str s => Request.fromFields rest { acc with method := some s }
        | _ => .error ⟨"invalid type: expected string"⟩
    else if k = "params" then
      match acc.params with
      | some _ => .error ⟨"duplicate field params"⟩
      | none => Request.fromFields rest { acc with params := some v }
    else if k = "id" then
      match acc.id with
      | some _ => .error ⟨"duplicate field id"⟩
      | none => Request.fromFields rest { acc with id := some v }
    else if k = "jsonrpc" then
      match acc.jsonrpc with
      | some _ => .error ⟨"duplicate field jsonrpc"⟩
      | none => do
        let o ← deOptString v
        Request.fromFields rest { acc with jsonrpc := some o }
    else
      Request.fromFields rest acc

/-- Serde deserialization of `Request`: `method`, `params` and `id` are
required, `jsonrpc` is optional with default `none`. -/
def Request.fromJson : Json → Except JsonDecodeError Request
  | .obj kvs => do
    let s ← Request.fromFields kvs ⟨none, none, none, none⟩
    match s.method, s.params, s.id with
    | some m, some p, some i => .ok ⟨m, p, i, s.jsonrpc.getD none⟩
    | none, _, _ => .error ⟨"missing field method"⟩
    | _, none, _ => .error ⟨"missing field params"⟩
    | _, _, none => .error ⟨"missing field id"⟩
  | _ => .error ⟨"invalid type: expected object"⟩

/-- Serde serialization of `Response` (fields in declaration order). -/
def Response.toJson (s : Response) : Json :=
  .obj [("result", serOpt (fun v => v) s.result),
        ("error", serOpt RpcError.toJson s.error),
        ("id", s.id), ("jsonrpc", serOpt Json.str s.jsonrpc)]

/-- Accumulator for the field loop of `Response`'s derived deserializer. -/
structure ResponseSlots where
  result : Option (Option Json)
  error : Option (Option RpcError)
  id : Option Json
  jsonrpc : Option (Option String)

/-- Field loop of `Response`'s derived deserializer. -/
def Response.fromFields :
    List (String × Json) → ResponseSlots → Except JsonDecodeError ResponseSlots
  | [], acc => .ok acc
  | (k, v) :: rest, acc =>
    if k = "result" then
      match acc.result with
      | some _ => .error ⟨"duplicate field result"⟩
      | none => Response.fromFields rest { acc with result := some (deOptJson v) }
    else if k = "error" then
      match acc.error with
      | some _ => .error ⟨"duplicate field error"⟩
      | none => do
        let oe ← deOptRpcError v
        Response.fromFields rest { acc with error := some oe }
    else if k = "id" then
      match acc.id with
      | some _ => .error ⟨"duplicate field id"⟩
      | none => Response.fromFields rest { acc with id := some v }
    else if k = "jsonrpc" then
      match acc.jsonrpc with
      | some _ => .error ⟨"duplicate field jsonrpc"⟩
      | none => do
        let o ← deOptString v
        Response.fromFields rest { acc with jsonrpc := some o }
    else
      Response.fromFields rest acc

/-- Serde deserialization of `Response`: `id` is required, the `result`,
`error` and `jsonrpc` fields are optional with default `none`. -/
def Response.fromJson : Json → Except JsonDecodeError Response
  | .obj kvs => do
    let s ← Response.fromFields kvs ⟨none, none, none, none⟩
    match s.id with
    | some i =>
      .ok ⟨(s.result).getD none, (s.error).getD none, i, (s.jsonrpc).getD none⟩
    | none => .error ⟨"missing field id"⟩
  | _ => .error ⟨"invalid type: expected object"⟩

/-- The embedding of one concrete `DeserializeOwned` target type (`T = bool`),
used to instantiate the generic extraction theorems at a specific type. -/
def decBool : Json → Except JsonDecodeError Bool
  | .bool b => .ok b
  | _ => .error ⟨"invalid type: expected bool"⟩

/-! ## Helper lemmas -/

theorem deOptJson_serOpt (o : Option Json) (h : o ≠ some .null) :
    deOptJson (serOpt (fun v => v) o) = o := by
  cases o with
  | none => rfl
  | some v => cases v <;> first | rfl | exact absurd rfl h

theorem deOptString_serOpt (o : Option String) :
    deOptString (serOpt Json.str o) = .ok o := by
  cases o <;> rfl

theorem rpcError_round_trip (e : RpcError) (h : e.data ≠ some .null) :
    RpcError.fromJson (RpcError.toJson e) = .ok e := by
  obtain ⟨c, m, d⟩ := e
  rcases d with _ | dv
  · rfl
  · cases dv <;> first | rfl | exact absurd rfl h

theorem deOptRpcError_serOpt (o : Option RpcError)
    (h : ∀ e, o = some e → e.data ≠ some .null) :
    deOptRpcError (serOpt RpcError.toJson o) = .ok o := by
  cases o with
  | none => rfl
  | some e =>
    show (RpcError.fromJson (RpcError.toJson e)).map some = .ok (some e)
    rw [rpcError_round_trip e (h e rfl)]
    rfl

theorem response_fromJson_full (rv ev iv jv : Json) (oe : Option RpcError)
    (os : Option String) (he : deOptRpcError ev = .ok oe)
    (hs : deOptString jv = .ok os) :
    Response.fromJson
        (.obj [("result", rv), ("error", ev), ("id", iv), ("jsonrpc", jv)])
      = .ok ⟨deOptJson rv, oe, iv, os⟩ := by
  simp [Response.fromJson, Response.fromFields, he, hs]
  rfl

/-! ## The claims -/

/-- C1: Error precedence — whenever the `error` field of a `Response` is
present, both `result` and `into_result` return `Error.Rpc` wrapping that
error unchanged, for every decoder of every target type, regardless of the
`result` field's content. -/
theorem error_precedence {α : Type} (dec : Json → Except JsonDecodeError α)
    (s : Response) (e : RpcError) (h : s.error = some e) :
    s.result' dec = .error (.Rpc e) ∧ s.into_result dec = .error (.Rpc e) := by
  constructor <;> simp [Response.result', Response.into_result, h]

theorem error_precedence_witness :
    (Response.mk (some (.bool true)) (some ⟨-77, "test4", some (.bool true)⟩)
        (.num 101) (some "2.0")).result' decBool
      = .error (.Rpc ⟨-77, "test4", some (.bool true)⟩) ∧
    (Response.mk (some (.bool true)) (some ⟨-77, "test4", some (.bool true)⟩)
        (.num 101) (some "2.0")).into_result decBool
      = .error (.Rpc ⟨-77, "test4", some (.bool true)⟩) :=
  error_precedence decBool _ _ rfl

/-- C2: Consuming/non-consuming equivalence — for every `Response` and every
decoder of every target type, `result` and `into_result` produce equal
outcomes. -/
theorem result_into_result_equiv {α : Type}
    (dec : Json → Except JsonDecodeError α) (s : Response) :
    s.result' dec = s.into_result dec := rfl

/-- C3: No-payload distinction — `result`/`into_result` return
`Error.NoErrorOrResult` exactly when both the `result` and `error` fields
are absent, and that outcome is a distinct error kind from `Error.Rpc` and
`Error.Json`; in particular a present `result` (even a present-but-null one)
never yields it. -/
theorem no_payload_distinction {α : Type}
    (dec : Json → Except JsonDecodeError α) (s : Response) :
    (s.result' dec = .error .NoErrorOrResult ↔
        s.result = none ∧ s.error = none) ∧
    (s.into_result dec = .error .NoErrorOrResult ↔
        s.result = none ∧ s.error = none) ∧
    (∀ e, (Error.NoErrorOrResult : Error) ≠ .Rpc e) ∧
    (∀ j, (Error.NoErrorOrResult : Error) ≠ .Json j) := by
  obtain ⟨res, err, i0, j0⟩ := s
  have hk1 : ∀ e, (Error.NoErrorOrResult : Error) ≠ .Rpc e := fun e h => by
    cases h
  have hk2 : ∀ j, (Error.NoErrorOrResult : Error) ≠ .Json j := fun j h => by
    cases h
  refine ⟨?_, ?_, hk1, hk2⟩ <;>
  · rcases err with _ | e
    · rcases res with _ | v
      · simp [Response.result', Response.into_result]
      · cases h : dec v <;>
          simp [Response.result', Response.into_result, h, Except.mapError]
    · simp [Response.result', Response.into_result]

/-- C4: Decode-failure surfacing — on a `Response` with `error` absent and
`result` present, a decoder failure is returned as `Error.Json` carrying the
underlying decode error unchanged, and a decoder success is returned as the
decoded value, by both `result` and `into_result`. -/
theorem decode_failure_surfacing {α : Type}
    (dec : Json → Except JsonDecodeError α) (s : Response) (v : Json)
    (herr : s.error = none) (hres : s.result = some v) :
    (∀ e, dec v = .error e →
        s.result' dec = .error (.Json e) ∧
        s.into_result dec = .error (.Json e)) ∧
    (∀ t, dec v = .ok t →
        s.result' dec = .ok t ∧ s.into_result dec = .ok t) := by
  constructor
  · intro e h
    constructor <;>
      simp [Response.result', Response.into_result, herr, hres, h,
        Except.mapError]
  · intro t h
    constructor <;>
      simp [Response.result', Response.into_result, herr, hres, h,
        Except.mapError]

theorem decode_failure_surfacing_witness :
    (Response.mk (some (.str "x")) none .null none).result' decBool
        = .error (.Json ⟨"invalid type: expected bool"⟩) ∧
    (Response.mk (some (.str "x")) none .null none).into_result decBool
        = .error (.Json ⟨"invalid type: expected bool"⟩) :=
  (decode_failure_surfacing decBool _ (.str "x") rfl rfl).1 _ rfl

/-- C5: `check_error` contract — it fails with `Error.Rpc e` exactly when the
`error` field holds `e`, succeeds exactly when `error` is absent, and its
outcome is unchanged under any replacement of the `result`, `id` and
`jsonrpc` fields. -/
theorem check_error_contract (s : Response) :
    (∀ e, s.check_error = .error (.Rpc e) ↔ s.error = some e) ∧
    (s.check_error = .ok () ↔ s.error = none) ∧
    (∀ r i j, (Response.mk r s.error i j).check_error = s.check_error) := by
  obtain ⟨res, err, i0, j0⟩ := s
  rcases err with _ | e <;> simp [Response.check_error]

/-- C6: `is_none` contract — it returns `true` exactly when the `result`
field is absent, and its outcome is unchanged under any replacement of the
`error` field. -/
theorem is_none_contract (s : Response) :
    (s.is_none = true ↔ s.result = none) ∧
    (∀ e, (Response.mk s.result e s.id s.jsonrpc).is_none = s.is_none) := by
  obtain ⟨res, err, i0, j0⟩ := s
  rcases res with _ | v <;> simp [Response.is_none]

/-- C7: Request round-trip — deserializing the serialization of any
`Request` (any method, arbitrary nested params and id values, `jsonrpc`
present or absent) yields the same `Request`, field for field. -/
theorem request_round_trip (r : Request) :
    Request.fromJson (Request.toJson r) = .ok r := by
  obtain ⟨m, p, i, j⟩ := r
  cases j <;> rfl

/-- C8 (counterexample): a `Response` whose `result` field is present but
null does not survive the round trip — it comes back with `result` absent,
so the claimed absent/null distinction is not preserved. -/
theorem response_round_trip_cex :
    Response.fromJson (Response.toJson ⟨some .null, none, .null, none⟩)
      ≠ Except.ok ⟨some .null, none, .null, none⟩ := by
  intro h
  have h2 : (Except.ok (⟨none, none, .null, none⟩ : Response)
        : Except JsonDecodeError Response)
      = .ok ⟨some .null, none, .null, none⟩ := h
  injection h2 with h3
  exact Option.noConfusion (congrArg Response.result h3)

/-- C8 (amended): deserializing the serialization of a `Response` yields the
same `Response`, including when `error` carries nested structured data,
provided neither the `result` field nor the error's `data` field is
present-but-null; a present-but-null value in those positions collapses to
absent across the round trip. -/
theorem response_round_trip_amended (s : Response)
    (hres : s.result ≠ some .null)
    (hdata : ∀ e, s.error = some e → e.data ≠ some .null) :
    Response.fromJson (Response.toJson s) = .ok s := by
  obtain ⟨res, err, i0, j0⟩ := s
  calc Response.fromJson (Response.toJson ⟨res, err, i0, j0⟩)
      = .ok ⟨deOptJson (serOpt (fun v => v) res), err, i0, j0⟩ :=
        response_fromJson_full _ _ i0 _ err j0
          (deOptRpcError_serOpt err hdata) (deOptString_serOpt j0)
    _ = .ok ⟨res, err, i0, j0⟩ := by rw [deOptJson_serOpt res hres]

theorem response_round_trip_amended_witness :
    Response.fromJson (Response.toJson
        ⟨some (.arr [.null, .bool false, .bool true, .str "test2"]),
         some ⟨-77, "test4", some (.bool true)⟩, .num 101, some "2.0"⟩)
      = .ok ⟨some (.arr [.null, .bool false, .bool true, .str "test2"]),
         some ⟨-77, "test4", some (.bool true)⟩, .num 101, some "2.0"⟩ :=
  response_round_trip_amended _ (by simp)
    (by rintro e h; injection h with h2; subst h2; simp)

/-- C9: Totality of extraction — every extraction operation is a total
function of the `Response`: on every possible field content it returns an
explicit `ok`/`error` outcome (or an explicit boolean), for every decoder of
every target type. -/
theorem extraction_total {α : Type} (dec : Json → Except JsonDecodeError α)
    (s : Response) :
    ((∃ t, s.result' dec = .ok t) ∨ (∃ e, s.result' dec = .error e)) ∧
    ((∃ t, s.into_result dec = .ok t) ∨ (∃ e, s.into_result dec = .error e)) ∧
    (s.check_error = .ok () ∨ (∃ e, s.check_error = .error e)) ∧
    (s.is_none = true ∨ s.is_none = false) := by
  refine ⟨?_, ?_, ?_, ?_⟩
  · cases s.result' dec with
    | ok t => exact .inl ⟨t, rfl⟩
    | error e => exact .inr ⟨e, rfl⟩
  · cases s.into_result dec with
    | ok t => exact .inl ⟨t, rfl⟩
    | error e => exact .inr ⟨e, rfl⟩
  · cases s.check_error with
    | ok t => exact .inl rfl
    | error e => exact .inr ⟨e, rfl⟩
  · cases s.is_none <;> simp

/-- C10: Version tag not enforced — a wire object whose `jsonrpc` field holds
any string (not just "2.0") deserializes successfully into a `Request` or a
`Response` carrying that string, and the empty string is likewise accepted as
a `Request` method; no validation of the version tag occurs. -/
theorem version_tag_not_enforced (s : String) (p i : Json) :
    (∀ m : String, Request.fromJson (.obj [("method", .str m), ("params", p),
        ("id", i), ("jsonrpc", .str s)]) = .ok ⟨m, p, i, some s⟩) ∧
    Request.fromJson (.obj [("method", .str ""), ("params", p), ("id", i),
        ("jsonrpc", .str s)]) = .ok ⟨"", p, i, some s⟩ ∧
    Response.fromJson (.obj [("id", i), ("jsonrpc", .str s)])
      = .ok ⟨none, none, i, some s⟩ :=
  ⟨fun _ => rfl, rfl, rfl⟩

end Clightningrpc
